import Mathlib

/-
Shallow embedding of `src/augur/tasks/util/collection_util.py`
(weston1111/augur): the collection-status state machine, outcome
handlers, weight estimator and chain orchestrator.

Conventions of the embedding:
- Database rows are records; the database is explicit state threaded
  through the handlers. A handler returns the new database together
  with the log messages it emitted and the exception it raised out of
  the task body, if any (SQLAlchemy sessions discard uncommitted
  mutations when the `with` block exits on an exception, so a raising
  handler leaves the database unchanged unless it committed first).
- Python `None` for nullable columns is `Option.none`; timestamps are
  opaque strings, with the current time passed as a parameter.
- Celery, the external job-execution engine, is modelled through the
  spec's collaborator interface (section 6): submitting a chain always
  returns a fresh dispatch handle, modelled as the ordinal of the
  submission; the error sink attached via `link_error` is recorded on
  the dispatch.
-/

namespace Augur

/-- Wire values of the `CollectionState` enum (source lines 26-32). -/
def CollectionState.SUCCESS : String := "Success"

def CollectionState.PENDING : String := "Pending"

def CollectionState.ERROR : String := "Error"

def CollectionState.COLLECTING : String := "Collecting"

def CollectionState.UPDATE : String := "Update"

def CollectionState.FAILED_CLONE : String := "Failed Clone"

/-- The Python exceptions the embedded code can raise. -/
inductive PyErr where
  | attributeError (msg : String)
  | exception (msg : String)
  | noResultFound
  | multipleResultsFound
  | indexError
deriving DecidableEq

/-- One track (core / secondary / facade) of a `CollectionStatus` row:
columns `<track>_status`, `<track>_task_id`, `<track>_data_last_collected`
of the persisted schema. -/
structure Track where
  status : String
  task_id : Option String
  data_last_collected : Option String
deriving DecidableEq

/-- A `CollectionStatus` row: `repo_id` plus the three tracks. -/
structure StatusRow where
  repo_id : Nat
  core : Track
  secondary : Track
  facade : Track
deriving DecidableEq

/-- A `Repo` row: internal `repo_id` and the `repo_git` location. -/
structure RepoRow where
  repo_id : Nat
  repo_git : String
deriving DecidableEq

/-- The database state visible to this module: the `Repo` table and the
`CollectionStatus` table. -/
structure DB where
  repos : List RepoRow
  statuses : List StatusRow
deriving DecidableEq

/-- Does a `CollectionStatus` row match the failing task id on any track?
Embeds the filter `or_(core_id_match, secondary_id_match, facade_id_match)`
of `task_failed` (source lines 64-68). -/
def rowMatches (rid : String) (row : StatusRow) : Bool :=
  row.core.task_id == some rid || row.secondary.task_id == some rid ||
    row.facade.task_id == some rid

/-- Modelled from the spec: the `CollectionStatus` ORM model class lives in
`augur/application/db/models`, which is not under `src/`. Per the spec's
persisted schema (section 6) and data model (section 3) it carries only
`repo_id` and, per track, `<track>_status`, `<track>_task_id`,
`<track>_data_last_collected`; it defines no class attribute `ERROR`
(the string constants live on the `CollectionState` enum of this file
instead). Hence the attribute access `CollectionStatus.ERROR` performed
by `task_failed` (source lines 88, 94, 99) raises `AttributeError`. -/
def collectionStatusModelERROR : Except PyErr String :=
  .error (.attributeError "type object CollectionStatus has no attribute ERROR")

/-- The three `if` blocks of `task_failed` (source lines 86-100): for each
track whose task id equals the failing id, evaluate
`CollectionStatus.ERROR.value` and store it as the track status, clearing
the task id. Evaluation of the right-hand side happens before the
assignment, so a raise leaves the row untouched. -/
def updateMatchingTracks (rid : String) (row : StatusRow) : Except PyErr StatusRow := do
  let row1 ←
    if row.core.task_id == some rid then do
      let v ← collectionStatusModelERROR
      pure { row with core := { row.core with status := v, task_id := none } }
    else pure row
  let row2 ←
    if row1.secondary.task_id == some rid then do
      let v ← collectionStatusModelERROR
      pure { row1 with secondary := { row1.secondary with status := v, task_id := none } }
    else pure row1
  if row2.facade.task_id == some rid then do
    let v ← collectionStatusModelERROR
    pure { row2 with facade := { row2.facade with status := v, task_id := none } }
  else pure row2

/-- Outcome of the assignment `request.chain = None` in `task_failed`
(source line 74): it can succeed, raise `AttributeError` (the request is
not chain-shaped), or raise some other exception. -/
inductive ChainSetOutcome where
  | ok
  | attrError
  | otherError (msg : String)
deriving DecidableEq

/-- The celery request object delivered to the `task_failed` error sink:
the failing task's id and the behaviour of its `chain` attribute. -/
structure FailedRequest where
  id : String
  chainSet : ChainSetOutcome
deriving DecidableEq

/-- Log messages emitted by the chain-truncation `try` block of
`task_failed` (source lines 72-78): `AttributeError` is passed over
silently, any other exception is logged via `logger.error` and
swallowed. -/
def truncateChainLogs (req : FailedRequest) : List String :=
  match req.chainSet with
  | .ok => []
  | .attrError => []
  | .otherError e => ["Could not mutate request chain! \n Error: " ++ e]

/-- Result of running one celery task body: the database afterwards, the
log messages emitted, and the exception propagated out of the body, if
any. -/
structure TaskResult where
  db : DB
  logs : List String
  err : Option PyErr
deriving DecidableEq

/-- Embedding of `task_failed` (source lines 53-102). Logs the failure,
attempts to truncate the chain (best-effort, see `truncateChainLogs`),
then runs `execute_session_query(query, 'one')`: the query must return
exactly one matching `CollectionStatus` row, any other cardinality
raises, and the bare `except: return` swallows that raise. On the unique
match it runs the per-track updates and commits; an exception from the
updates propagates and nothing is committed.

`execute_session_query` lives in `augur/application/db/util`, not under
`src/`; it is modelled from the spec's Status Store `get` operation
(section 4.1, `NotFound` on absence) together with the SQLAlchemy
`Query.one` contract its `'one'` argument names: exactly one row or an
error. `DatabaseSession` likewise lives outside `src/` and is modelled
per spec section 4.1 as a working session whose commit persists the
mutated row and whose exceptional exit discards uncommitted changes. -/
def task_failed (req : FailedRequest) (exc : String) (db : DB) : TaskResult :=
  let logs := ("Task " ++ req.id ++ " raised exception: " ++ exc) :: truncateChainLogs req
  match db.statuses.filter (fun row => rowMatches req.id row) with
  | [record] =>
    match updateMatchingTracks req.id record with
    | .ok newRecord =>
      { db := { db with
                statuses := db.statuses.map
                  (fun row => if rowMatches req.id row then newRecord else row) }
        logs := logs
        err := none }
    | .error e => { db := db, logs := logs, err := some e }
  | _ => { db := db, logs := logs, err := none }

/-- Modelled from the spec: `Repo.get_by_repo_git` lives in
`augur/application/db/models`, not under `src/`; the spec's repository
lookup interface (section 6) is `find_by_location(repo_git) →
Repository | None`, here the first `Repo` row whose `repo_git` matches,
or `none`. -/
def get_by_repo_git (db : DB) (rg : String) : Option RepoRow :=
  db.repos.find? (fun r => r.repo_git == rg)

/-- Modelled from the spec: the `repo.collection_status` relationship
attribute of the ORM model (not under `src/`) — the `CollectionStatus`
rows owned by the repository (spec section 3: a repository owns
zero-or-one such row). -/
def collectionStatusOf (db : DB) (rid : Nat) : List StatusRow :=
  db.statuses.filter (fun s => s.repo_id == rid)

/-- Replace the first `CollectionStatus` row owned by `rid` using `f`,
leaving every other row unchanged: the effect of mutating the object
`repo.collection_status[0]` and committing. -/
def replaceFirstStatus (statuses : List StatusRow) (rid : Nat)
    (f : StatusRow → StatusRow) : List StatusRow :=
  match statuses with
  | [] => []
  | s :: rest =>
    if s.repo_id == rid then f s :: rest
    else s :: replaceFirstStatus rest rid f

/-- The track contents a success handler writes: status `Success`, task
id cleared, last-collected set to the formatted current time. -/
def successTrack (now : String) : Track :=
  { status := CollectionState.SUCCESS, task_id := none,
    data_last_collected := some now }

/-- The field updates of `core_task_success` (source lines 122-124):
`core_status = CollectionState.SUCCESS.value`, `core_data_last_collected`
set to the formatted current time, `core_task_id = None`. -/
def setCoreSuccess (now : String) (s : StatusRow) : StatusRow :=
  { s with core := successTrack now }

/-- The field updates of `secondary_task_success` (source lines 145-147). -/
def setSecondarySuccess (now : String) (s : StatusRow) : StatusRow :=
  { s with secondary := successTrack now }

/-- The field updates of `facade_task_success` (source lines 185-187). -/
def setFacadeSuccess (now : String) (s : StatusRow) : StatusRow :=
  { s with facade := successTrack now }

/-- Common shape of the three success handlers (source lines 105-126,
128-149, 168-189): look the repository up by `repo_git` and raise
`Exception` if it is absent; take `repo.collection_status[0]`, raising
`IndexError` if the repository owns no status row; apply the track's
field updates to that row and commit. -/
def successHandler (upd : String → StatusRow → StatusRow) (db : DB)
    (repo_git now : String) : TaskResult :=
  match get_by_repo_git db repo_git with
  | none =>
    { db := db
      logs := []
      err := some (.exception ("Task with repo_git of " ++ repo_git ++
        " but could not be found in Repo table")) }
  | some repo =>
    match collectionStatusOf db repo.repo_id with
    | [] => { db := db, logs := [], err := some .indexError }
    | _ :: _ =>
      { db := { db with
                statuses := replaceFirstStatus db.statuses repo.repo_id (upd now) }
        logs := []
        err := none }

/-- Embedding of `core_task_success` (source lines 105-126). -/
def core_task_success (db : DB) (repo_git now : String) : TaskResult :=
  successHandler setCoreSuccess db repo_git now

/-- Embedding of `secondary_task_success` (source lines 128-149). -/
def secondary_task_success (db : DB) (repo_git now : String) : TaskResult :=
  successHandler setSecondarySuccess db repo_git now

/-- Embedding of `facade_task_success` (source lines 168-189). -/
def facade_task_success (db : DB) (repo_git now : String) : TaskResult :=
  successHandler setFacadeSuccess db repo_git now

/-- Embedding of `date_weight_factor` (source lines 151-152):
`days_since_last_collection ** 3 / 25` with Python true division,
over the rationals. -/
def date_weight_factor (days_since_last_collection : ℚ) : ℚ :=
  days_since_last_collection ^ 3 / 25

/-- Embedding of `get_repo_weight_by_issue` (source lines 155-164): the
number of issues and prs is the sum of the lengths of the two fetched
collections, and the weight subtracts the date factor from it. -/
def get_repo_weight_by_issue {α β : Type} (issues : List α) (prs : List β)
    (days_since_last_collection : ℚ) : ℚ :=
  ((issues.length + prs.length : ℕ) : ℚ) -
    date_weight_factor days_since_last_collection

/-- A collection phase as registered with `AugurTaskRoutine`: a named
callable (`name` is Python's `__name__`) taking `repo_git` to a task
description of type `τ`. -/
structure Phase (τ : Type) where
  name : String
  ctor : String → τ

/-- Python `dict` assignment `d[k] = v` on an insertion-ordered
association list: an existing key keeps its position and gets the new
value, a new key is appended. -/
def dictInsert {α : Type} (k : String) (v : α)
    (d : List (String × α)) : List (String × α) :=
  if d.any (fun p => p.1 == k) then
    d.map (fun p => if p.1 == k then (k, v) else p)
  else d ++ [(k, v)]

/-- State of an `AugurTaskRoutine` instance (source lines 195-230):
`jobs_dict` maps phase `__name__` to the phase, `collection_phases` is
the list handed to (and appended to by) the instance, `repos` the
candidate repositories. -/
structure AugurTaskRoutine (τ : Type) where
  jobs_dict : List (String × Phase τ)
  collection_phases : List (Phase τ)
  repos : List String

/-- Embedding of `AugurTaskRoutine.__init__` (source lines 206-218):
stores `repos` and `collection_phases`, then inserts every phase into
`jobs_dict` keyed by its `__name__`, in list order. -/
def AugurTaskRoutine.init {τ : Type} (repos : List String)
    (collection_phases : List (Phase τ)) : AugurTaskRoutine τ :=
  { jobs_dict := collection_phases.foldl (fun d p => dictInsert p.name p d) []
    collection_phases := collection_phases
    repos := repos }

/-- Embedding of `AugurTaskRoutine.__setitem__` (source lines 226-230):
appends `newJobs` to `collection_phases` and assigns `jobs_dict[key]`. -/
def AugurTaskRoutine.setItem {τ : Type} (r : AugurTaskRoutine τ)
    (key : String) (newJobs : Phase τ) : AugurTaskRoutine τ :=
  { r with collection_phases := r.collection_phases ++ [newJobs]
           jobs_dict := dictInsert key newJobs r.jobs_dict }

/-- Embedding of `AugurTaskRoutine.__getitem__` (source lines 221-224). -/
def AugurTaskRoutine.getItem {τ : Type} (r : AugurTaskRoutine τ)
    (key : String) : Option (Phase τ) :=
  (r.jobs_dict.find? (fun p => p.1 == key)).map (fun p => p.2)

/-- One chain submitted to the execution engine: the task descriptions in
order, and the error sink attached via `link_error`. Modelled from the
spec's job-execution interface (section 6): `submit(chain, error_sink) →
dispatch_handle`, the handle being the ordinal of the submission. -/
structure Dispatch (τ : Type) where
  tasks : List τ
  link_error : String
deriving DecidableEq

/-- The `Repo` lookup of `start_data_collection` (source line 239):
`session.query(Repo).filter(Repo.repo_git == repo_git).one()` — exactly
one row or a raise. -/
def queryRepoOne (db : DB) (rg : String) : Except PyErr RepoRow :=
  match db.repos.filter (fun r => r.repo_git == rg) with
  | [r] => .ok r
  | [] => .error .noResultFound
  | _ => .error .multipleResultsFound

/-- What a run of the `start_data_collection` generator produced before
it finished or raised: the chains dispatched, the `(repo_git, task_id)`
pairs yielded, and the exception that escaped the generator, if any. -/
structure StartResult (τ : Type) where
  dispatches : List (Dispatch τ)
  yielded : List (String × Nat)
  err : Option PyErr
deriving DecidableEq

/-- The per-repository loop of `start_data_collection` (source lines
237-258), with `n` the handle the next submission will receive: resolve
the repository (a raise escapes the generator, ending the run with what
was already dispatched and yielded), build one task per `jobs_dict`
entry in registration order by calling the phase on `repo_git`, link
them into a chain submitted with `task_failed` as the error sink, and
yield `(repo_git, task_id)`. -/
def startLoop {τ : Type} (jobs : List (String × Phase τ)) (db : DB) :
    List String → Nat → StartResult τ
  | [], _ => { dispatches := [], yielded := [], err := none }
  | rg :: rest, n =>
    match queryRepoOne db rg with
    | .error e => { dispatches := [], yielded := [], err := some e }
    | .ok _ =>
      let seq := jobs.map (fun p => p.2.ctor rg)
      let r := startLoop jobs db rest (n + 1)
      { dispatches := { tasks := seq, link_error := "task_failed" } :: r.dispatches
        yielded := (rg, n) :: r.yielded
        err := r.err }

/-- Embedding of `AugurTaskRoutine.start_data_collection` (source lines
232-258), run to exhaustion by the caller. -/
def start_data_collection {τ : Type} (routine : AugurTaskRoutine τ)
    (db : DB) : StartResult τ :=
  startLoop routine.jobs_dict db routine.repos 0

/-- The first `CollectionStatus` row owned by `rid`, if any:
`repo.collection_status[0]` as a query. -/
def firstStatus (db : DB) (rid : Nat) : Option StatusRow :=
  (collectionStatusOf db rid).head?

/-! ### Concrete fixtures used by witnesses and counterexamples -/

/-- A track with no in-flight task. -/
def trackIdle : Track :=
  { status := CollectionState.PENDING, task_id := none, data_last_collected := none }

/-- A collecting track whose in-flight task has handle `tid`. -/
def trackWith (tid : String) : Track :=
  { status := CollectionState.COLLECTING, task_id := some tid, data_last_collected := none }

/-- One repository, its core track in flight under handle `t1`. -/
def dbOneMatch : DB :=
  { repos := [{ repo_id := 1, repo_git := "https://github.com/a/b" }]
    statuses := [{ repo_id := 1, core := trackWith "t1",
                   secondary := trackIdle, facade := trackIdle }] }

/-- Two repositories whose core tracks both carry handle `t5`:
the failing handle matches tracks on two distinct status rows. -/
def dbTwoMatch : DB :=
  { repos := [{ repo_id := 1, repo_git := "a" }, { repo_id := 2, repo_git := "b" }]
    statuses := [{ repo_id := 1, core := trackWith "t5",
                   secondary := trackIdle, facade := trackIdle },
                 { repo_id := 2, core := trackWith "t5",
                   secondary := trackIdle, facade := trackIdle }] }

/-- A repository with an idle status row and no handle out. -/
def dbIdle : DB :=
  { repos := [{ repo_id := 1, repo_git := "g" }]
    statuses := [{ repo_id := 1, core := trackIdle,
                   secondary := trackIdle, facade := trackIdle }] }

/-! ### Helper lemmas -/

/-- `task_failed` always emits the entry log line followed by the
truncation logs, whatever the lookup finds. -/
lemma task_failed_logs_eq (req : FailedRequest) (exc : String) (db : DB) :
    (task_failed req exc db).logs
      = ("Task " ++ req.id ++ " raised exception: " ++ exc) :: truncateChainLogs req := by
  unfold task_failed
  cases h : db.statuses.filter (fun row => rowMatches req.id row) with
  | nil => rfl
  | cons a l =>
    cases l with
    | nil => cases hu : updateMatchingTracks req.id a <;> simp [hu]
    | cons b l2 => rfl

/-- The database outcome and the raised exception of `task_failed` do not
depend on how the chain-truncation attempt went. -/
lemma task_failed_db_err_const (id exc : String) (c : ChainSetOutcome) (db : DB) :
    (task_failed ⟨id, c⟩ exc db).db = (task_failed ⟨id, ChainSetOutcome.ok⟩ exc db).db
  ∧ (task_failed ⟨id, c⟩ exc db).err = (task_failed ⟨id, ChainSetOutcome.ok⟩ exc db).err := by
  unfold task_failed
  cases h : db.statuses.filter (fun row => rowMatches id row) with
  | nil => exact ⟨rfl, rfl⟩
  | cons a l =>
    cases l with
    | nil => cases hu : updateMatchingTracks id a <;> simp [hu]
    | cons b l2 => exact ⟨rfl, rfl⟩

/-! ### Claim theorems -/

/-- C1 (code_bug evidence): with a single status row whose core task id
equals the failing handle `t1`, `task_failed` does not set the track to
`Error` with a cleared handle, as the claim states; it raises
`AttributeError` while evaluating `CollectionStatus.ERROR.value` (the
`ERROR` constant lives on the `CollectionState` enum, not on the
`CollectionStatus` ORM model the code names) and commits nothing, so the
track keeps status `Collecting` and its task handle. -/
theorem task_failed_raises_instead_of_setting_error :
    (task_failed ⟨"t1", ChainSetOutcome.ok⟩ "boom" dbOneMatch).err
        = some (.attributeError "type object CollectionStatus has no attribute ERROR")
  ∧ (task_failed ⟨"t1", ChainSetOutcome.ok⟩ "boom" dbOneMatch).db = dbOneMatch
  ∧ (task_failed ⟨"t1", ChainSetOutcome.ok⟩ "boom" dbOneMatch).db.statuses.map
        (fun s => (s.core.status, s.core.task_id))
      = [(CollectionState.COLLECTING, some "t1")] := by
  refine ⟨rfl, rfl, rfl⟩

/-- C4: `get_repo_weight_by_issue` equals the open-issue/PR count minus
the cube of the elapsed days divided by 25; with 10 issues+prs it gives
weight 10 at 0 days, 5 at 5 days and -30 at 10 days. -/
theorem get_repo_weight_by_issue_formula {α β : Type} (issues : List α)
    (prs : List β) (d : ℚ) :
    get_repo_weight_by_issue issues prs d
      = ((issues.length + prs.length : ℕ) : ℚ) - d ^ 3 / 25
  ∧ get_repo_weight_by_issue (List.replicate 10 0) ([] : List ℕ) 0 = 10
  ∧ get_repo_weight_by_issue (List.replicate 10 0) ([] : List ℕ) 5 = 5
  ∧ get_repo_weight_by_issue (List.replicate 10 0) ([] : List ℕ) 10 = -30 := by
  refine ⟨rfl, ?_, ?_, ?_⟩ <;>
    norm_num [get_repo_weight_by_issue, date_weight_factor]

/-- C5 (counterexample): when the failing handle `t5` matches the core
tracks of two distinct status rows, `task_failed` does not "proceed to
update every matching track" as the claim states: it returns without
raising and leaves both rows untouched — both tracks keep status
`Collecting` and their task handles. -/
theorem task_failed_multirow_match_not_updated :
    (task_failed ⟨"t5", ChainSetOutcome.ok⟩ "x" dbTwoMatch).db = dbTwoMatch
  ∧ (task_failed ⟨"t5", ChainSetOutcome.ok⟩ "x" dbTwoMatch).err = none
  ∧ (task_failed ⟨"t5", ChainSetOutcome.ok⟩ "x" dbTwoMatch).db.statuses.map
        (fun s => (s.core.status, s.core.task_id))
      = [(CollectionState.COLLECTING, some "t5"),
         (CollectionState.COLLECTING, some "t5")] := by
  refine ⟨rfl, rfl, rfl⟩

/-- C5 (amended): when the failing handle matches tracks on more than one
status row, the single-record lookup of `task_failed` fails, the bare
`except` swallows the failure, and the handler returns without raising
and without mutating any status row. -/
theorem task_failed_multirow_returns_unchanged (req : FailedRequest)
    (exc : String) (db : DB)
    (h : 2 ≤ (db.statuses.filter (fun row => rowMatches req.id row)).length) :
    (task_failed req exc db).err = none ∧ (task_failed req exc db).db = db := by
  unfold task_failed
  cases hf : db.statuses.filter (fun row => rowMatches req.id row) with
  | nil => simp [hf] at h
  | cons a l =>
    cases l with
    | nil => simp [hf] at h
    | cons b l2 => exact ⟨rfl, rfl⟩

/-- Witness for the amended C5 at the concrete two-row database. -/
theorem task_failed_multirow_returns_unchanged_witness :
    (task_failed ⟨"t5", ChainSetOutcome.ok⟩ "x" dbTwoMatch).err = none
  ∧ (task_failed ⟨"t5", ChainSetOutcome.ok⟩ "x" dbTwoMatch).db = dbTwoMatch :=
  task_failed_multirow_returns_unchanged ⟨"t5", ChainSetOutcome.ok⟩ "x" dbTwoMatch
    (by decide)

/-- C6: when no status row carries the failing handle, `task_failed`
returns without raising and without mutating any row, its entry log line
is still emitted (the invocation is logged, not silent), and a second
call on the resulting database behaves identically. -/
theorem task_failed_no_match_noop (req : FailedRequest) (exc : String) (db : DB)
    (h : db.statuses.filter (fun row => rowMatches req.id row) = []) :
    (task_failed req exc db).err = none
  ∧ (task_failed req exc db).db = db
  ∧ (task_failed req exc db).logs ≠ []
  ∧ task_failed req exc (task_failed req exc db).db = task_failed req exc db := by
  have hdb : (task_failed req exc db).db = db := by
    unfold task_failed
    simp only [h]
  refine ⟨?_, hdb, ?_, by rw [hdb]⟩
  · unfold task_failed
    simp only [h]
  · rw [task_failed_logs_eq]
    exact List.cons_ne_nil _ _

/-- Witness for C6: a database whose only status row has no task handle
out (the handle was already cleared). -/
theorem task_failed_no_match_noop_witness :
    (task_failed ⟨"t9", ChainSetOutcome.ok⟩ "x" dbIdle).err = none
  ∧ (task_failed ⟨"t9", ChainSetOutcome.ok⟩ "x" dbIdle).db = dbIdle
  ∧ (task_failed ⟨"t9", ChainSetOutcome.ok⟩ "x" dbIdle).logs ≠ []
  ∧ task_failed ⟨"t9", ChainSetOutcome.ok⟩ "x"
        (task_failed ⟨"t9", ChainSetOutcome.ok⟩ "x" dbIdle).db
      = task_failed ⟨"t9", ChainSetOutcome.ok⟩ "x" dbIdle :=
  task_failed_no_match_noop ⟨"t9", ChainSetOutcome.ok⟩ "x" dbIdle (by decide)

/-- C9: the chain-truncation attempt of `task_failed` is best-effort: an
`AttributeError` (the request is not chain-shaped) is swallowed without
any log entry — the logs equal those of a successful truncation — while
any other exception adds exactly one error log entry and is likewise not
re-raised; and in every case the handler proceeds to the status-row
update, whose database outcome and raised exception are independent of
how the truncation went. -/
theorem task_failed_truncation_best_effort (id exc msg : String) (db : DB) :
    ((task_failed ⟨id, ChainSetOutcome.attrError⟩ exc db).logs
        = (task_failed ⟨id, ChainSetOutcome.ok⟩ exc db).logs)
  ∧ ((task_failed ⟨id, ChainSetOutcome.otherError msg⟩ exc db).logs
        = (task_failed ⟨id, ChainSetOutcome.ok⟩ exc db).logs
            ++ ["Could not mutate request chain! \n Error: " ++ msg])
  ∧ (∀ c₁ c₂ : ChainSetOutcome,
        (task_failed ⟨id, c₁⟩ exc db).db = (task_failed ⟨id, c₂⟩ exc db).db
      ∧ (task_failed ⟨id, c₁⟩ exc db).err = (task_failed ⟨id, c₂⟩ exc db).err) := by
  refine ⟨?_, ?_, ?_⟩
  · rw [task_failed_logs_eq, task_failed_logs_eq]
    rfl
  · rw [task_failed_logs_eq, task_failed_logs_eq]
    rfl
  · intro c₁ c₂
    obtain ⟨hdb₁, herr₁⟩ := task_failed_db_err_const id exc c₁ db
    obtain ⟨hdb₂, herr₂⟩ := task_failed_db_err_const id exc c₂ db
    exact ⟨hdb₁.trans hdb₂.symm, herr₁.trans herr₂.symm⟩

/-- Filtering by owner after `replaceFirstStatus` rewrites exactly the
head of the filtered list, provided the update preserves `repo_id`. -/
lemma filter_replaceFirstStatus (rid : Nat) (f : StatusRow → StatusRow)
    (hpres : ∀ s, (f s).repo_id = s.repo_id) :
    ∀ l : List StatusRow,
      (replaceFirstStatus l rid f).filter (fun s => s.repo_id == rid)
        = match l.filter (fun s => s.repo_id == rid) with
          | [] => []
          | s :: rest => f s :: rest := by
  intro l
  induction l with
  | nil => rfl
  | cons s rest ih =>
    unfold replaceFirstStatus
    by_cases hb : s.repo_id = rid
    · have hfb : (f s).repo_id = rid := (hpres s).trans hb
      simp [List.filter_cons, hb, hfb]
    · have hsb : (s.repo_id == rid) = false := by simp [hb]
      simp only [hsb, Bool.false_eq_true, if_false, List.filter_cons, hsb]
      exact ih

/-- `firstStatus` after `replaceFirstStatus` is the update mapped over
the old first status row. -/
lemma firstStatus_replaceFirstStatus (db : DB) (rid : Nat)
    (f : StatusRow → StatusRow) (hpres : ∀ s, (f s).repo_id = s.repo_id) :
    firstStatus { db with statuses := replaceFirstStatus db.statuses rid f } rid
      = (firstStatus db rid).map f := by
  unfold firstStatus collectionStatusOf
  rw [filter_replaceFirstStatus rid f hpres]
  cases db.statuses.filter (fun s => s.repo_id == rid) with
  | nil => rfl
  | cons s rest => rfl

/-- When the repository is found and owns a status row, a success
handler commits, and the first owned status row afterwards is the old
one with the track's field updates applied. -/
lemma successHandler_found (upd : String → StatusRow → StatusRow)
    (hpres : ∀ now s, (upd now s).repo_id = s.repo_id)
    (db : DB) (rg now : String) (repo : RepoRow)
    (hrepo : get_by_repo_git db rg = some repo)
    (hcs : collectionStatusOf db repo.repo_id ≠ []) :
    (successHandler upd db rg now).err = none
  ∧ firstStatus (successHandler upd db rg now).db repo.repo_id
      = (firstStatus db repo.repo_id).map (upd now) := by
  cases hc : collectionStatusOf db repo.repo_id with
  | nil => exact absurd hc hcs
  | cons s rest =>
    have hres : successHandler upd db rg now
        = { db := { db with
                    statuses := replaceFirstStatus db.statuses repo.repo_id (upd now) }
            logs := []
            err := none } := by
      simp only [successHandler, hrepo, hc]
    rw [hres]
    exact ⟨rfl, firstStatus_replaceFirstStatus db repo.repo_id (upd now) (hpres now)⟩

/-- A success handler whose repository lookup fails raises the
`Exception` of source lines 117-118 / 140-141 / 180-181 and leaves the
database unchanged. -/
lemma successHandler_not_found (upd : String → StatusRow → StatusRow)
    (db : DB) (rg now : String) (hrepo : get_by_repo_git db rg = none) :
    (successHandler upd db rg now).err
        = some (.exception ("Task with repo_git of " ++ rg ++
            " but could not be found in Repo table"))
  ∧ (successHandler upd db rg now).db = db := by
  simp [successHandler, hrepo]

/-- C2: for each track, when the repository is found (and owns a status
row), the corresponding success handler returns without raising and the
repository's status row afterwards carries, on that track, status
`Success`, a cleared task id and the current time as last-collected;
when the repository cannot be found, each handler raises an `Exception`
that propagates out of the task body. -/
theorem success_handlers_update_track (db : DB) (rg now : String) :
    (∀ repo, get_by_repo_git db rg = some repo →
        collectionStatusOf db repo.repo_id ≠ [] →
        ((core_task_success db rg now).err = none
          ∧ (firstStatus (core_task_success db rg now).db repo.repo_id).map StatusRow.core
              = some (successTrack now))
      ∧ ((secondary_task_success db rg now).err = none
          ∧ (firstStatus (secondary_task_success db rg now).db repo.repo_id).map
                StatusRow.secondary
              = some (successTrack now))
      ∧ ((facade_task_success db rg now).err = none
          ∧ (firstStatus (facade_task_success db rg now).db repo.repo_id).map
                StatusRow.facade
              = some (successTrack now)))
  ∧ (get_by_repo_git db rg = none →
        (core_task_success db rg now).err
            = some (.exception ("Task with repo_git of " ++ rg ++
                " but could not be found in Repo table"))
      ∧ (secondary_task_success db rg now).err
            = some (.exception ("Task with repo_git of " ++ rg ++
                " but could not be found in Repo table"))
      ∧ (facade_task_success db rg now).err
            = some (.exception ("Task with repo_git of " ++ rg ++
                " but could not be found in Repo table"))) := by
  constructor
  · intro repo hrepo hcs
    cases hc : collectionStatusOf db repo.repo_id with
    | nil => exact absurd hc hcs
    | cons s rest =>
      have hfs : firstStatus db repo.repo_id = some s := by
        unfold firstStatus
        rw [hc]
        rfl
      refine ⟨?_, ?_, ?_⟩
      · obtain ⟨he, hf⟩ := successHandler_found setCoreSuccess (fun _ _ => rfl)
          db rg now repo hrepo hcs
        exact ⟨he, by unfold core_task_success; rw [hf, hfs]; rfl⟩
      · obtain ⟨he, hf⟩ := successHandler_found setSecondarySuccess (fun _ _ => rfl)
          db rg now repo hrepo hcs
        exact ⟨he, by unfold secondary_task_success; rw [hf, hfs]; rfl⟩
      · obtain ⟨he, hf⟩ := successHandler_found setFacadeSuccess (fun _ _ => rfl)
          db rg now repo hrepo hcs
        exact ⟨he, by unfold facade_task_success; rw [hf, hfs]; rfl⟩
  · intro hrepo
    exact ⟨(successHandler_not_found setCoreSuccess db rg now hrepo).1,
           (successHandler_not_found setSecondarySuccess db rg now hrepo).1,
           (successHandler_not_found setFacadeSuccess db rg now hrepo).1⟩

/-- Witness for C2 at a concrete database: the found case for all three
tracks on `dbIdle`, and the raising case on a location no repository
has. -/
theorem success_handlers_update_track_witness :
    ((core_task_success dbIdle "g" "2024-01-02 03:04:05").err = none
      ∧ (firstStatus (core_task_success dbIdle "g" "2024-01-02 03:04:05").db 1).map
            StatusRow.core
          = some (successTrack "2024-01-02 03:04:05"))
  ∧ ((facade_task_success dbIdle "g" "2024-01-02 03:04:05").err = none
      ∧ (firstStatus (facade_task_success dbIdle "g" "2024-01-02 03:04:05").db 1).map
            StatusRow.facade
          = some (successTrack "2024-01-02 03:04:05"))
  ∧ (core_task_success dbIdle "nowhere" "2024-01-02 03:04:05").err
        = some (.exception ("Task with repo_git of " ++ "nowhere" ++
            " but could not be found in Repo table")) := by
  have h := success_handlers_update_track dbIdle "g" "2024-01-02 03:04:05"
  have h₂ := success_handlers_update_track dbIdle "nowhere" "2024-01-02 03:04:05"
  have hfound := h.1 { repo_id := 1, repo_git := "g" } (by decide) (by decide)
  exact ⟨hfound.1, hfound.2.2, (h₂.2 (by decide)).1⟩

/-- `replaceFirstStatus` relates the old and new status lists pointwise:
every row is unchanged, except possibly a row owned by `rid` which is
rewritten by `f`. -/
lemma replaceFirstStatus_forall₂ (rid : Nat) (f : StatusRow → StatusRow) :
    ∀ l : List StatusRow,
      List.Forall₂ (fun old new => new = old ∨ (old.repo_id = rid ∧ new = f old))
        l (replaceFirstStatus l rid f) := by
  intro l
  induction l with
  | nil => exact List.Forall₂.nil
  | cons s rest ih =>
    unfold replaceFirstStatus
    by_cases hb : s.repo_id = rid
    · simp only [hb, beq_self_eq_true, if_true]
      exact List.Forall₂.cons (Or.inr ⟨hb, rfl⟩)
        (List.forall₂_same.mpr fun x _ => Or.inl rfl)
    · have hsb : (s.repo_id == rid) = false := by simp [hb]
      simp only [hsb, Bool.false_eq_true, if_false]
      exact List.Forall₂.cons (Or.inl rfl) ih

/-- Frame of a success handler: the `Repo` table is untouched, and every
status row is unchanged except possibly one owned by the looked-up
repository, which gets the track's field updates. -/
lemma successHandler_frame (upd : String → StatusRow → StatusRow)
    (db : DB) (rg now : String) (repo : RepoRow)
    (hrepo : get_by_repo_git db rg = some repo) :
    (successHandler upd db rg now).db.repos = db.repos
  ∧ List.Forall₂ (fun old new => new = old ∨
        (old.repo_id = repo.repo_id ∧ new = upd now old))
      db.statuses (successHandler upd db rg now).db.statuses := by
  cases hc : collectionStatusOf db repo.repo_id with
  | nil =>
    have hres : successHandler upd db rg now
        = { db := db, logs := [], err := some PyErr.indexError } := by
      simp only [successHandler, hrepo, hc]
    rw [hres]
    exact ⟨rfl, List.forall₂_same.mpr fun x _ => Or.inl rfl⟩
  | cons s rest =>
    have hres : successHandler upd db rg now
        = { db := { db with
                    statuses := replaceFirstStatus db.statuses repo.repo_id (upd now) }
            logs := []
            err := none } := by
      simp only [successHandler, hrepo, hc]
    rw [hres]
    exact ⟨rfl, replaceFirstStatus_forall₂ repo.repo_id (upd now) db.statuses⟩

/-- C7: each success handler mutates at most the named track's three
fields of the looked-up repository's status row: the `Repo` table is
unchanged, and pointwise every status row is either unchanged or — only
for a row owned by that repository — rewritten with the named track
replaced and the other two tracks (and `repo_id`) kept. -/
theorem success_handlers_frame (db : DB) (rg now : String) (repo : RepoRow)
    (hrepo : get_by_repo_git db rg = some repo) :
    ((core_task_success db rg now).db.repos = db.repos
      ∧ List.Forall₂ (fun old new => new = old ∨ (old.repo_id = repo.repo_id
          ∧ new = { old with core := successTrack now }))
          db.statuses (core_task_success db rg now).db.statuses)
  ∧ ((secondary_task_success db rg now).db.repos = db.repos
      ∧ List.Forall₂ (fun old new => new = old ∨ (old.repo_id = repo.repo_id
          ∧ new = { old with secondary := successTrack now }))
          db.statuses (secondary_task_success db rg now).db.statuses)
  ∧ ((facade_task_success db rg now).db.repos = db.repos
      ∧ List.Forall₂ (fun old new => new = old ∨ (old.repo_id = repo.repo_id
          ∧ new = { old with facade := successTrack now }))
          db.statuses (facade_task_success db rg now).db.statuses) :=
  ⟨successHandler_frame setCoreSuccess db rg now repo hrepo,
   successHandler_frame setSecondarySuccess db rg now repo hrepo,
   successHandler_frame setFacadeSuccess db rg now repo hrepo⟩

/-- Witness for C7 at the concrete database `dbIdle`. -/
theorem success_handlers_frame_witness :
    ((core_task_success dbIdle "g" "2024-06-01 00:00:00").db.repos = dbIdle.repos
      ∧ List.Forall₂ (fun old new => new = old ∨ (old.repo_id = 1
          ∧ new = { old with core := successTrack "2024-06-01 00:00:00" }))
          dbIdle.statuses (core_task_success dbIdle "g" "2024-06-01 00:00:00").db.statuses)
  ∧ ((secondary_task_success dbIdle "g" "2024-06-01 00:00:00").db.repos = dbIdle.repos
      ∧ List.Forall₂ (fun old new => new = old ∨ (old.repo_id = 1
          ∧ new = { old with secondary := successTrack "2024-06-01 00:00:00" }))
          dbIdle.statuses
          (secondary_task_success dbIdle "g" "2024-06-01 00:00:00").db.statuses)
  ∧ ((facade_task_success dbIdle "g" "2024-06-01 00:00:00").db.repos = dbIdle.repos
      ∧ List.Forall₂ (fun old new => new = old ∨ (old.repo_id = 1
          ∧ new = { old with facade := successTrack "2024-06-01 00:00:00" }))
          dbIdle.statuses
          (facade_task_success dbIdle "g" "2024-06-01 00:00:00").db.statuses) :=
  success_handlers_frame dbIdle "g" "2024-06-01 00:00:00"
    { repo_id := 1, repo_git := "g" } (by decide)

/-- When every candidate repository resolves, the dispatch loop raises
nothing, dispatches one chain per repository built from the registered
jobs, and yields one `(repo_git, handle)` pair per repository with
consecutive handles starting at `n`. -/
lemma startLoop_all_ok {τ : Type} (jobs : List (String × Phase τ)) (db : DB) :
    ∀ (repos : List String) (n : Nat),
      (∀ rg ∈ repos, ∃ r, queryRepoOne db rg = .ok r) →
      (startLoop jobs db repos n).err = none
    ∧ (startLoop jobs db repos n).dispatches
        = repos.map (fun rg =>
            { tasks := jobs.map (fun p => p.2.ctor rg), link_error := "task_failed" })
    ∧ (startLoop jobs db repos n).yielded = repos.zip (List.range' n repos.length) := by
  intro repos
  induction repos with
  | nil => exact fun n _ => ⟨rfl, rfl, rfl⟩
  | cons rg rest ih =>
    intro n h
    obtain ⟨r, hr⟩ := h rg (List.mem_cons_self rg rest)
    obtain ⟨he, hd, hy⟩ := ih (n + 1) (fun x hx => h x (List.mem_cons_of_mem _ hx))
    have hres : startLoop jobs db (rg :: rest) n
        = { dispatches := { tasks := jobs.map (fun p => p.2.ctor rg),
                            link_error := "task_failed" }
              :: (startLoop jobs db rest (n + 1)).dispatches
            yielded := (rg, n) :: (startLoop jobs db rest (n + 1)).yielded
            err := (startLoop jobs db rest (n + 1)).err } := by
      simp only [startLoop, hr]
    rw [hres]
    refine ⟨he, ?_, ?_⟩
    · simp only [List.map_cons, hd]
    · simp only [List.length_cons, List.range'_succ, List.zip_cons_cons, hy]

/-- C3: when every candidate repository resolves, `start_data_collection`
dispatches exactly one chain per repository in candidate-list order, each
chain holding one task per `jobs_dict` entry in registration order built
by applying the phase to that repository's `repo_git`, submitted with
`task_failed` attached as the error sink, and yields exactly one
`(repo_git, dispatch_handle)` pair per repository. -/
theorem start_data_collection_dispatch {τ : Type} (routine : AugurTaskRoutine τ)
    (db : DB) (h : ∀ rg ∈ routine.repos, ∃ r, queryRepoOne db rg = .ok r) :
    (start_data_collection routine db).err = none
  ∧ (start_data_collection routine db).dispatches
      = routine.repos.map (fun rg =>
          { tasks := routine.jobs_dict.map (fun p => p.2.ctor rg),
            link_error := "task_failed" })
  ∧ (start_data_collection routine db).yielded.map Prod.fst = routine.repos
  ∧ (start_data_collection routine db).yielded.map Prod.snd
      = List.range routine.repos.length := by
  obtain ⟨he, hd, hy⟩ := startLoop_all_ok routine.jobs_dict db routine.repos 0 h
  have hlen : (List.range' 0 routine.repos.length).length = routine.repos.length := by
    simp
  refine ⟨he, hd, ?_, ?_⟩
  · unfold start_data_collection
    rw [hy]
    exact List.map_fst_zip _ _ (le_of_eq hlen.symm)
  · unfold start_data_collection
    rw [hy, List.map_snd_zip _ _ (le_of_eq hlen), List.range_eq_range']

/-- A phase named `A` producing a recognisable task description. -/
def phaseA : Phase String := { name := "A", ctor := fun _ => "A-task" }

/-- A phase named `B` producing a recognisable task description. -/
def phaseB : Phase String := { name := "B", ctor := fun _ => "B-task" }

/-- Two registered repositories. -/
def dbTwoRepos : DB :=
  { repos := [{ repo_id := 1, repo_git := "r1" }, { repo_id := 2, repo_git := "r2" }]
    statuses := [] }

/-- A routine over phases `[A, B]` and repositories `[r1, r2]`. -/
def routineAB : AugurTaskRoutine String :=
  AugurTaskRoutine.init ["r1", "r2"] [phaseA, phaseB]

/-- Witness for C3: phases `[A, B]` and repositories `[r1, r2]` give two
chains and two yielded pairs. -/
theorem start_data_collection_dispatch_witness :
    (start_data_collection routineAB dbTwoRepos).err = none
  ∧ (start_data_collection routineAB dbTwoRepos).dispatches
      = routineAB.repos.map (fun rg =>
          { tasks := routineAB.jobs_dict.map (fun p => p.2.ctor rg),
            link_error := "task_failed" })
  ∧ (start_data_collection routineAB dbTwoRepos).yielded.map Prod.fst
      = routineAB.repos
  ∧ (start_data_collection routineAB dbTwoRepos).yielded.map Prod.snd
      = List.range routineAB.repos.length := by
  refine start_data_collection_dispatch routineAB dbTwoRepos ?_
  intro rg hrg
  have hms : rg = "r1" ∨ rg = "r2" := by
    simpa [routineAB, AugurTaskRoutine.init] using hrg
  rcases hms with rfl | rfl
  · exact ⟨{ repo_id := 1, repo_git := "r1" }, rfl⟩
  · exact ⟨{ repo_id := 2, repo_git := "r2" }, rfl⟩

/-- A candidate list whose first repository does not exist in `Repo`. -/
def routineMissingFirst : AugurTaskRoutine String :=
  AugurTaskRoutine.init ["missing", "good"] [phaseA]

/-- A database that knows only the repository `good`. -/
def dbGoodOnly : DB :=
  { repos := [{ repo_id := 2, repo_git := "good" }], statuses := [] }

/-- C8 (counterexample): with candidate list `[missing, good]` where
`missing` is not registered, `start_data_collection` raises
`NoResultFound` out of the generator and neither dispatches a chain for
`good` nor yields its pair — the failure is not contained to the missing
repository and the run does not proceed to the next repository, contrary
to the claim. -/
theorem start_data_collection_missing_aborts_all :
    (start_data_collection routineMissingFirst dbGoodOnly).err
        = some PyErr.noResultFound
  ∧ (start_data_collection routineMissingFirst dbGoodOnly).yielded = []
  ∧ (start_data_collection routineMissingFirst dbGoodOnly).dispatches = [] := by
  refine ⟨rfl, rfl, rfl⟩

/-- The dispatch loop up to the first unresolvable repository: every
repository before it is dispatched and yielded, the failure escapes, and
nothing at or after the failing repository is processed. -/
lemma startLoop_aborts {τ : Type} (jobs : List (String × Phase τ)) (db : DB)
    (bad : String) (post : List String)
    (hbad : ∀ r, queryRepoOne db bad ≠ .ok r) :
    ∀ (pre : List String) (n : Nat),
      (∀ rg ∈ pre, ∃ r, queryRepoOne db rg = .ok r) →
      (startLoop jobs db (pre ++ bad :: post) n).err ≠ none
    ∧ (startLoop jobs db (pre ++ bad :: post) n).yielded.map Prod.fst = pre
    ∧ (startLoop jobs db (pre ++ bad :: post) n).dispatches.length = pre.length := by
  intro pre
  induction pre with
  | nil =>
    intro n _
    cases hq : queryRepoOne db bad with
    | ok r => exact absurd hq (hbad r)
    | error e =>
      have hres : startLoop jobs db ([] ++ bad :: post) n
          = { dispatches := [], yielded := [], err := some e } := by
        simp only [List.nil_append, startLoop, hq]
      rw [hres]
      exact ⟨by simp, rfl, rfl⟩
  | cons rg rest ih =>
    intro n h
    obtain ⟨r, hr⟩ := h rg (List.mem_cons_self rg rest)
    obtain ⟨he, hy, hd⟩ := ih (n + 1) (fun x hx => h x (List.mem_cons_of_mem _ hx))
    have hres : startLoop jobs db ((rg :: rest) ++ bad :: post) n
        = { dispatches := { tasks := jobs.map (fun p => p.2.ctor rg),
                            link_error := "task_failed" }
              :: (startLoop jobs db (rest ++ bad :: post) (n + 1)).dispatches
            yielded := (rg, n) :: (startLoop jobs db (rest ++ bad :: post) (n + 1)).yielded
            err := (startLoop jobs db (rest ++ bad :: post) (n + 1)).err } := by
      simp only [List.cons_append, startLoop, hr]
      rfl
    rw [hres]
    exact ⟨he, by simp [hy], by simp [hd]⟩

/-- C8 (amended): a repository that cannot be resolved is fatal for the
whole dispatch sequence, not only for itself: `start_data_collection`
dispatches and yields exactly the repositories preceding the missing one
in the candidate list, then the lookup failure escapes the generator and
the missing repository and all later ones are not dispatched. -/
theorem start_data_collection_aborts_on_missing {τ : Type}
    (routine : AugurTaskRoutine τ) (db : DB) (pre post : List String) (bad : String)
    (hrepos : routine.repos = pre ++ bad :: post)
    (hpre : ∀ rg ∈ pre, ∃ r, queryRepoOne db rg = .ok r)
    (hbad : ∀ r, queryRepoOne db bad ≠ .ok r) :
    (start_data_collection routine db).err ≠ none
  ∧ (start_data_collection routine db).yielded.map Prod.fst = pre
  ∧ (start_data_collection routine db).dispatches.length = pre.length := by
  unfold start_data_collection
  rw [hrepos]
  exact startLoop_aborts routine.jobs_dict db bad post hbad pre 0 hpre

/-- A candidate list whose second repository does not exist in `Repo`. -/
def routineGoodThenMissing : AugurTaskRoutine String :=
  AugurTaskRoutine.init ["good", "missing"] [phaseA]

/-- Witness for the amended C8: `good` is dispatched and yielded, then
the failure on `missing` escapes. -/
theorem start_data_collection_aborts_on_missing_witness :
    (start_data_collection routineGoodThenMissing dbGoodOnly).err ≠ none
  ∧ (start_data_collection routineGoodThenMissing dbGoodOnly).yielded.map Prod.fst
      = ["good"]
  ∧ (start_data_collection routineGoodThenMissing dbGoodOnly).dispatches.length = 1 := by
  refine start_data_collection_aborts_on_missing routineGoodThenMissing dbGoodOnly
    ["good"] [] "missing" rfl ?_ ?_
  · intro rg hrg
    have : rg = "good" := by simpa using hrg
    subst this
    exact ⟨{ repo_id := 2, repo_git := "good" }, rfl⟩
  · intro r hr
    have hq : queryRepoOne dbGoodOnly "missing" = .error PyErr.noResultFound := rfl
    rw [hq] at hr
    exact Except.noConfusion hr

/-- C10: the phase registry is keyed by the constructor's `__name__`:
with two phases of the same name, the later one replaces the earlier in
`jobs_dict`, so every assembled chain holds a single task, built by the
later phase — while `collection_phases` still lists both; and
`__setitem__` under an already-present key appends to
`collection_phases` yet leaves the size of `jobs_dict` unchanged, so the
phases list and the chain contents diverge. -/
theorem jobs_dict_keyed_by_name {τ : Type} (repos : List String)
    (A B : Phase τ) (rg key : String) (hname : A.name = B.name) :
    (AugurTaskRoutine.init repos [A, B]).jobs_dict = [(B.name, B)]
  ∧ ((AugurTaskRoutine.init repos [A, B]).jobs_dict.map (fun p => p.2.ctor rg))
      = [B.ctor rg]
  ∧ (AugurTaskRoutine.init repos [A, B]).collection_phases = [A, B]
  ∧ (∀ (r : AugurTaskRoutine τ) (p : Phase τ),
        r.jobs_dict.any (fun q => q.1 == key) = true →
        (r.setItem key p).collection_phases.length = r.collection_phases.length + 1
      ∧ (r.setItem key p).jobs_dict.length = r.jobs_dict.length) := by
  have hdict : (AugurTaskRoutine.init repos [A, B]).jobs_dict = [(B.name, B)] := by
    simp [AugurTaskRoutine.init, dictInsert, hname]
  refine ⟨hdict, by rw [hdict]; rfl, rfl, ?_⟩
  intro r p hq
  constructor
  · simp [AugurTaskRoutine.setItem]
  · simp [AugurTaskRoutine.setItem, dictInsert, hq]

/-- A phase named `dup`, first version. -/
def phaseDupA : Phase String := { name := "dup", ctor := fun _ => "dupA-task" }

/-- A phase named `dup`, second version. -/
def phaseDupB : Phase String := { name := "dup", ctor := fun _ => "dupB-task" }

/-- Witness for C10 with two phases both named `dup`. -/
theorem jobs_dict_keyed_by_name_witness :
    (AugurTaskRoutine.init ["r"] [phaseDupA, phaseDupB]).jobs_dict
        = [("dup", phaseDupB)]
  ∧ ((AugurTaskRoutine.init ["r"] [phaseDupA, phaseDupB]).jobs_dict.map
        (fun p => p.2.ctor "r")) = ["dupB-task"]
  ∧ (AugurTaskRoutine.init ["r"] [phaseDupA, phaseDupB]).collection_phases
        = [phaseDupA, phaseDupB]
  ∧ (((AugurTaskRoutine.init ["r"] [phaseDupA, phaseDupB]).setItem "dup"
        phaseDupA).collection_phases.length
      = (AugurTaskRoutine.init ["r"] [phaseDupA, phaseDupB]).collection_phases.length + 1
    ∧ ((AugurTaskRoutine.init ["r"] [phaseDupA, phaseDupB]).setItem "dup"
        phaseDupA).jobs_dict.length
      = (AugurTaskRoutine.init ["r"] [phaseDupA, phaseDupB]).jobs_dict.length) := by
  have h := jobs_dict_keyed_by_name ["r"] phaseDupA phaseDupB "r" "dup" rfl
  exact ⟨h.1, h.2.1, h.2.2.1,
    h.2.2.2 (AugurTaskRoutine.init ["r"] [phaseDupA, phaseDupB]) phaseDupA (by rfl)⟩

end Augur
